import Mathlib

/-!
Verification of the task-dispatch engine of the AI_Debugger_Assistant
repository: a shallow embedding of
`ai_agent_project/src/ChainOfThoughtReasoner.py` (chain-of-thought
reasoning engine), `ai_agent_project/src/agents/core/AgentDispatcher.py`
(dispatcher with retry, rate limiting and dead-letter escalation) and the
`Task` model of `db/models.py`, together with theorems settling the
spec's claims about them.

External collaborators (the text-generation pipeline used for task
decomposition and self-evaluation, and the per-step agent dispatcher seen
from the reasoner) are modelled as oracle functions `String → String`,
matching the spec's "opaque text-in/text-out service" boundary.
-/

namespace Spec2Proof

/-! ## String utilities

Python's substring membership test (`needle in haystack`) and
`str.join`, embedded on character lists. -/

/-- Boolean prefix test on character lists. -/
def isPre : List Char → List Char → Bool
  | [], _ => true
  | _ :: _, [] => false
  | c :: cs, d :: ds => c == d && isPre cs ds

/-- Boolean substring test on character lists: does `pat` occur inside the
second list?  Embeds Python's `pat in s`. -/
def hasSub (pat : List Char) : List Char → Bool
  | [] => isPre pat []
  | c :: rest => isPre pat (c :: rest) || hasSub pat rest

/-- `containsSub s pat`: `pat` occurs as a contiguous substring of `s`. -/
def containsSub (s pat : String) : Bool :=
  hasSub pat.toList s.toList

/-- Python `str.lower()` (over the ASCII range relevant here). -/
def toLowerStr (s : String) : String :=
  String.mk (s.toList.map Char.toLower)

/-- Python `str.strip()`: drop leading and trailing whitespace. -/
def trimStr (s : String) : String :=
  String.mk (((s.toList.dropWhile Char.isWhitespace).reverse.dropWhile
    Char.isWhitespace).reverse)

/-- Split a character list at each newline (Python `str.split("\n")`). -/
def splitLinesAux : List Char → List (List Char)
  | [] => [[]]
  | c :: rest =>
      match splitLinesAux rest with
      | [] => [[c]]
      | h :: t => if c == '\n' then [] :: h :: t else (c :: h) :: t

/-- Python `text.split("\n")`. -/
def splitNl (text : String) : List String :=
  (splitLinesAux text.toList).map String.mk

/-! ## ChainOfThoughtReasoner (`ai_agent_project/src/ChainOfThoughtReasoner.py`)

The reasoner's contextual memory `self.memory` is a Python dict
`step_id ↦ result`; Python dicts preserve insertion order and updating an
existing key keeps its position, so memory is embedded as an ordered
association list with in-place update. -/

/-- The fixed error-indicator vocabulary of `ChainOfThoughtReasoner._is_error`. -/
def error_indicators : List String :=
  ["error", "failed", "exception", "invalid", "could not", "unable to"]

/-- `ChainOfThoughtReasoner._is_error`: true iff some indicator occurs in
`result.lower()`. -/
def is_error (result : String) : Bool :=
  error_indicators.any (fun indicator => containsSub (toLowerStr result) indicator)

/-- The character set stripped from the front of each line by
`parse_decomposition_output` (the Python `lstrip` argument). -/
def stripChars : List Char := "0123456789.)-• ".toList

/-- Python `line.lstrip("0123456789.)-• ")`. -/
def lstripSet (s : String) : String :=
  String.mk (s.toList.dropWhile (fun c => stripChars.contains c))

/-- `ChainOfThoughtReasoner.parse_decomposition_output`: split on newlines,
strip each line, drop empty lines, strip leading numbering/bullets, keep
nonempty steps. -/
def parse_decomposition_output (text : String) : List String :=
  (splitNl text).filterMap (fun rawLine =>
    let line := trimStr rawLine
    if line = "" then none
    else
      let step := trimStr (lstripSet line)
      if step = "" then none else some step)

/-- The decomposition prompt built by `decompose_task`. -/
def decomposition_prompt (task : String) : String :=
  "Decompose the following task into detailed, logical, and semantically meaningful steps:\n\nTask: "
    ++ task ++ "\n\nSteps:"

/-- The evaluation prompt built by `self_evaluate`. -/
def evaluation_prompt (step result : String) : String :=
  "Evaluate the following result for the step:\n\nStep: " ++ step
    ++ "\nResult: " ++ result
    ++ "\n\nIs the result correct and complete? (yes/no):"

/-- The augmented prompt built by `retry_step`. -/
def retry_prompt (step : String) : String :=
  "The previous attempt to complete the step failed. Please try again with more details.\n\nStep: "
    ++ step

/-- One rendered memory entry, as produced inside `enrich_step_with_memory`
(Python f-string `f"{k}: {v}"`). -/
def memoryEntry (p : String × String) : String := p.1 ++ ": " ++ p.2

/-- Python `"\n".join` over the rendered memory entries. -/
def joinMemory : List (String × String) → String
  | [] => ""
  | [p] => memoryEntry p
  | p :: q :: rest => memoryEntry p ++ "\n" ++ joinMemory (q :: rest)

/-- `ChainOfThoughtReasoner.enrich_step_with_memory`. -/
def enrich_step_with_memory (memory : List (String × String)) (step : String) : String :=
  "Contextual Memory:\n" ++ joinMemory memory ++ "\n\nTask Step: " ++ step

/-- `ChainOfThoughtReasoner.update_memory`: Python dict assignment
`self.memory[step_id] = result` (replace in place, else append). -/
def update_memory (memory : List (String × String)) (sid result : String) :
    List (String × String) :=
  match memory with
  | [] => [(sid, result)]
  | p :: rest =>
      if p.1 == sid then (sid, result) :: rest
      else p :: update_memory rest sid result

/-- `ChainOfThoughtReasoner.self_evaluate`: ask the generation pipeline and
accept iff the stripped, lower-cased answer contains `"yes"`. -/
def self_evaluate (gen : String → String) (step result : String) : Bool :=
  containsSub (toLowerStr (trimStr (gen (evaluation_prompt step result)))) "yes"

/-- The abort message `f"Failed at step {idx}: \x27{step}\x27. Error: {result}"`. -/
def step_error_message (idx : Nat) (step result : String) : String :=
  "Failed at step " ++ toString idx ++ ": \x27" ++ step ++ "\x27. Error: " ++ result

/-- The abort message `f"Retry failed at step {idx}: \x27{step}\x27. Error: {retry_result}"`. -/
def retry_error_message (idx : Nat) (step result : String) : String :=
  "Retry failed at step " ++ toString idx ++ ": \x27" ++ step ++ "\x27. Error: " ++ result

/-- Node identifiers assigned by `build_reasoning_graph` (`f"step_{idx}"`). -/
def step_id (idx : Nat) : String := "step_" ++ toString idx

/-- `ChainOfThoughtReasoner.build_reasoning_graph`: one node `step_i` per
step with the step text as content, edges forming the linear chain
`step_i → step_{i+1}`.  The topological order of that chain is unique and
equal to list order, so the graph is embedded as the ordered list of
`(node id, content)` pairs. -/
def build_reasoning_graph (steps : List String) : List (String × String) :=
  steps.enum.map (fun p => (step_id (p.1 + 1), p.2))

/-- The step loop of `ChainOfThoughtReasoner.solve_task_with_reasoning`
(lines 61-92): for each step in execution order, enrich with memory,
dispatch, abort on a classified error, store the result in memory,
self-evaluate, retry once on a failed evaluation (aborting if the retry's
result is classified as an error, else accepting and storing the retry's
result), and finally return the last accepted result.

Returns `(final result, final memory, trace of prompts passed to
`agent_dispatcher.dispatch_task` in order)`. -/
def solve_steps (dispatch gen : String → String) :
    List (String × String) → Nat → List (String × String) → Option String →
    String × List (String × String) × List String
  | [], _, memory, finalResult =>
      (match finalResult with
       | some r => r
       | none => "No result produced.", memory, [])
  | (sid, step) :: rest, idx, memory, _ =>
      let enriched := enrich_step_with_memory memory step
      let result := dispatch enriched
      if is_error result then
        (step_error_message idx step result, memory, [enriched])
      else
        let memory1 := update_memory memory sid result
        if self_evaluate gen step result then
          let r := solve_steps dispatch gen rest (idx + 1) memory1 (some result)
          (r.1, r.2.1, enriched :: r.2.2)
        else
          let rp := retry_prompt step
          let retryResult := dispatch rp
          if is_error retryResult then
            (retry_error_message idx step retryResult, memory1, [enriched, rp])
          else
            let memory2 := update_memory memory1 sid retryResult
            let r := solve_steps dispatch gen rest (idx + 1) memory2 (some retryResult)
            (r.1, r.2.1, enriched :: rp :: r.2.2)

/-- `ChainOfThoughtReasoner.solve_task_with_reasoning`: decompose the task
through the generation pipeline, build the linear reasoning graph, and run
the step loop starting from the instance's current memory (which the
constructor initialises to `{}` and no method ever clears). -/
def solve_task_with_reasoning (dispatch gen : String → String)
    (memory : List (String × String)) (task : String) :
    String × List (String × String) × List String :=
  let steps := parse_decomposition_output (gen (decomposition_prompt task))
  solve_steps dispatch gen (build_reasoning_graph steps) 1 memory none

/-! ## AgentDispatcher (`ai_agent_project/src/agents/core/AgentDispatcher.py`)
and the `Task` model (`db/models.py`)

The database `tasks` table is embedded as a list of `TaskRec` in creation
order (the list position models `created_at`, which the queries order by).
The rate limiters (`aio_limiter.AsyncLimiter`, an external library) are
embedded by counting `acquire`/`release` calls; backoff sleeps are
recorded as the list of slept durations; agent executions are counted so
that the execution oracle can vary per attempt. -/

/-- Embedding of the `Task` model of `db/models.py` (lines 20-33).  Its
columns are exactly: id, description, agent_id, priority,
use_chain_of_thought, status, result, created_at, updated_at — in
particular the model has **no** `retry_count` column.  Timestamps are
represented by position in the store list. -/
structure TaskRec where
  id : Nat
  description : String
  agent_id : Nat
  priority : Int
  use_chain_of_thought : Bool
  status : String
  result : Option String
deriving Repr, DecidableEq

/-- The dispatcher-side mutable state touched by `dispatch_task` and
`_execute_standard_task`: the tasks table, the priority queue and
dead-letter queue contents (as lists of `(priority, task, agent)` entries
in insertion order; `kwargs` are absorbed by the execution oracle), the
rate-limiter acquire/release counts, the backoff sleeps performed, and
the number of `agent.solve_task` invocations. -/
structure DispatchState where
  store : List TaskRec
  queue : List (Int × String × String)
  dead_letter_queue : List (Int × String × String)
  acquires : Nat
  releases : Nat
  sleeps : List Nat
  agent_calls : Nat
deriving Repr, DecidableEq

/-- The state of a freshly constructed dispatcher with an empty database. -/
def initState : DispatchState :=
  { store := [], queue := [], dead_letter_queue := [],
    acquires := 0, releases := 0, sleeps := [], agent_calls := 0 }

/-- Name lookup in an agent table (`Agent` database rows, or the
`self.agents` plugin dict together with each plugin's `id`). -/
def lookupAgent (agents : List (String × Nat)) (name : String) : Option Nat :=
  (agents.find? (fun p => p.1 == name)).map (fun p => p.2)

/-- Latest-created record satisfying a predicate
(`.order_by(created_at.desc()).first()`): last match in creation order. -/
def findLatest (store : List TaskRec) (p : TaskRec → Bool) : Option Nat :=
  (store.reverse.find? p).map (fun t => t.id)

/-- Set the status of the record with the given id. -/
def setStatus (st : DispatchState) (tid : Nat) (status : String) : DispatchState :=
  { st with store := st.store.map (fun t =>
      if t.id == tid then { t with status := status } else t) }

/-- Set the status and result of the record with the given id. -/
def setStatusResult (st : DispatchState) (tid : Nat) (status : String)
    (result : Option String) : DispatchState :=
  { st with store := st.store.map (fun t =>
      if t.id == tid then { t with status := status, result := result } else t) }

/-- `AgentDispatcher._update_task_status` (lines 431-472): look up the agent
row, then the latest task with this description and agent whose status is
`running` or `queued`, and set its status and result; silently no-op when
either lookup fails. -/
def update_task_status (agentTable : List (String × Nat)) (st : DispatchState)
    (task agentName status : String) (result : Option String) : DispatchState :=
  match lookupAgent agentTable agentName with
  | none => st
  | some aid =>
      match findLatest st.store (fun t =>
          t.description == task && t.agent_id == aid
            && (t.status == "running" || t.status == "queued")) with
      | none => st
      | some tid => setStatusResult st tid status result

/-- `AgentDispatcher.dispatch_task` (lines 140-197): look the agent up in
the database; if absent return the error message at once (before any
record is created or anything is enqueued); otherwise persist a `queued`
task record and either run the chain-of-thought path synchronously or
push the task onto the priority queue and return `none`.

The chain-of-thought branch calls
`self.chain_of_thought_reasoner.solve_task_with_reasoning` — an instance
of `utilities.ChainOfThoughtReasoner`, a class not present in the sources
— so its result is supplied by the oracle `cot`; on return the record is
marked `completed` through `_update_task_status` (the oracle is total, so
the `except` branch of `_execute_with_chain_of_thought` is not taken). -/
def dispatch_task (agentTable : List (String × Nat)) (cot : String → String → String)
    (st : DispatchState) (task agentName : String) (priority : Int)
    (useCoT : Bool) : Option String × DispatchState :=
  match lookupAgent agentTable agentName with
  | none => (some ("Agent \x27" ++ agentName ++ "\x27 not found in database."), st)
  | some aid =>
      let t : TaskRec :=
        { id := st.store.length, description := task, agent_id := aid,
          priority := priority, use_chain_of_thought := useCoT,
          status := "queued", result := none }
      let st1 := { st with store := st.store ++ [t] }
      if useCoT then
        let r := cot task agentName
        (some r, update_task_status agentTable st1 task agentName "completed" (some r))
      else
        (none, { st1 with queue := st1.queue ++ [(priority, task, agentName)] })

/-- The value held by the Python variable `result` after line 299 of
`_execute_standard_task` rebinds it to `await session.execute(stmt)`: an
SQLAlchemy `Result` handle, not the agent's output.  Embedded as an
opaque marker value. -/
def sessionExecuteHandle : String := "<session.execute result handle>"

/-- `AgentDispatcher._execute_standard_task` (lines 230-345): look the agent
up in `self.agents` (returning an error message when absent), acquire the
agent's rate-limiter permit when one exists, look up the latest `queued`
record for this description and agent (returning an error message when
none matches — a path that runs after the permit was acquired and before
the `try`/`finally`, so it performs no release), mark the record
`running`, and invoke the agent: on success mark `completed` and return
the result; on exception, if `retry_count < max_retries` sleep
`2 ** retry_count` and recurse with `retry_count + 1`, else push the task
onto the dead-letter queue, send an alert, mark the record `failed` with
the exception text, and return an error string.  The `finally` block
releases the permit on every path that entered the `try`.

`outcome n` gives the result of the `(n+1)`-st `agent.solve_task` call of
the run (`.error` embeds a raised exception).  On the success path the
source rebinds the Python variable `result` to the value of
`result = await session.execute(stmt)` (line 299) before
`task_record.result = result` (line 303) and `return result` (line 306),
so a successful run stores and returns that SQLAlchemy query handle — not
the agent's output; the handle is embedded as the opaque marker
`sessionExecuteHandle`. -/
def execAux (agents : List (String × Nat)) (limiters : List String)
    (outcome : Nat → Except String String) (priority : Int)
    (task agentName : String) :
    Nat → Nat → DispatchState → String × DispatchState
  | gas, retryCount, st =>
    match lookupAgent agents agentName with
    | none => ("Agent \x27" ++ agentName ++ "\x27 not found.", st)
    | some aid =>
        let hasLimiter := limiters.contains agentName
        let st1 := if hasLimiter then { st with acquires := st.acquires + 1 } else st
        match findLatest st1.store (fun t =>
            t.description == task && t.agent_id == aid && t.status == "queued") with
        | none =>
            ("No matching queued task found for \x27" ++ task ++ "\x27 and agent \x27"
                ++ agentName ++ "\x27.", st1)
        | some tid =>
            let st2 := setStatus st1 tid "running"
            let st3 := { st2 with agent_calls := st2.agent_calls + 1 }
            match outcome st2.agent_calls with
            | Except.ok _ =>
                let st4 := setStatusResult st3 tid "completed" (some sessionExecuteHandle)
                let st5 := if hasLimiter then { st4 with releases := st4.releases + 1 } else st4
                (sessionExecuteHandle, st5)
            | Except.error e =>
                match gas with
                | g + 1 =>
                    let st4 := { st3 with sleeps := st3.sleeps ++ [2 ^ retryCount] }
                    let r5 := execAux agents limiters outcome priority task agentName
                      g (retryCount + 1) st4
                    let st6 := if hasLimiter then
                        { r5.2 with releases := r5.2.releases + 1 } else r5.2
                    (r5.1, st6)
                | 0 =>
                    let st4 := { st3 with dead_letter_queue :=
                        st3.dead_letter_queue ++ [(priority, task, agentName)] }
                    let st5 := setStatusResult st4 tid "failed" (some e)
                    let st6 := if hasLimiter then
                        { st5 with releases := st5.releases + 1 } else st5
                    ("Error executing task: " ++ e, st6)

/-- `AgentDispatcher._execute_standard_task` proper: the comparison
`retry_count < self.max_retries` of the source is embedded through the
structural gas value `max_retries - retry_count`, which is positive
exactly when `retry_count < max_retries` and decreases by one on each
recursive call (where `retry_count` increases by one), so `execAux`
branches exactly as the source's comparison does. -/
def execute_standard_task (maxRetries : Nat) (agents : List (String × Nat))
    (limiters : List String) (outcome : Nat → Except String String)
    (priority : Int) (task : String) (agentName : String)
    (retryCount : Nat) (st : DispatchState) : String × DispatchState :=
  execAux agents limiters outcome priority task agentName
    (maxRetries - retryCount) retryCount st

/-! ## Concrete fixtures

Closed scenarios used to evaluate the embedded code on the claims'
concrete inputs: one registered agent `helper` (database id 7, with a
rate limiter), a task `fix it` submitted through `dispatch_task`, and
execution oracles describing agents that always raise, or raise once and
then succeed. -/

/-- State after `dispatch_task` persisted and enqueued `fix it` for `helper`. -/
def submitFixIt : DispatchState :=
  (dispatch_task [("helper", 7)] (fun _ _ => "") initState "fix it" "helper" 1 false).2

/-- A store holding exactly one `queued` record for the given task/agent. -/
def singleQueued (task : String) (aid : Nat) (priority : Int) : DispatchState :=
  { initState with store := [⟨0, task, aid, priority, false, "queued", none⟩] }

/-- `_execute_standard_task` on `fix it` with an agent that raises on every
attempt. -/
def alwaysFailRun : String × DispatchState :=
  execute_standard_task 3 [("helper", 7)] ["helper"] (fun _ => Except.error "boom")
    1 "fix it" "helper" 0 submitFixIt

/-- `_execute_standard_task` on `fix it` with an agent that raises on its
first call and would succeed on its second. -/
def secondTrySucceedsRun : String × DispatchState :=
  execute_standard_task 3 [("helper", 7)] ["helper"]
    (fun n => if n == 0 then Except.error "boom" else Except.ok "done")
    1 "fix it" "helper" 0 submitFixIt

/-- A retry frame in isolation: `_execute_standard_task` entered with
`retry_count = 1` after the only record was already marked `running`. -/
def leakFrameRun : String × DispatchState :=
  execute_standard_task 3 [("helper", 7)] ["helper"] (fun _ => Except.error "boom")
    1 "fix it" "helper" 1
    { initState with store := [⟨0, "fix it", 7, 1, false, "running", none⟩] }

/-- Generation oracle for the two-successive-tasks scenario: decompose
`task1` into one step, `task2` into two steps, and answer `yes` to every
evaluation prompt. -/
def genTwoTasks : String → String := fun p =>
  if p = decomposition_prompt "task1" then "1. First"
  else if p = decomposition_prompt "task2" then "1. StepX\n2. StepY"
  else "yes"

/-- Dispatch oracle for the two-successive-tasks scenario: answer `A-ok`
to the step of the first task and `B-ok` to everything else. -/
def dispatchTwoTasks : String → String := fun p =>
  if containsSub p "First" then "A-ok" else "B-ok"

/-! ## Helper lemmas -/

theorem toList_append (a b : String) : (a ++ b).toList = a.toList ++ b.toList := by
  cases a; cases b; rfl

theorem isPre_iff (p l : List Char) : isPre p l = true ↔ ∃ t, l = p ++ t := by
  induction p generalizing l with
  | nil => simp [isPre]
  | cons c cs ih =>
      cases l with
      | nil => simp [isPre]
      | cons d ds =>
          simp only [isPre, Bool.and_eq_true, beq_iff_eq, ih]
          constructor
          · rintro ⟨rfl, t, rfl⟩
            exact ⟨t, rfl⟩
          · rintro ⟨t, h⟩
            cases h
            exact ⟨rfl, t, rfl⟩

theorem hasSub_iff (pat l : List Char) :
    hasSub pat l = true ↔ ∃ pre post, l = pre ++ pat ++ post := by
  induction l with
  | nil =>
      simp only [hasSub, isPre_iff]
      constructor
      · rintro ⟨t, h⟩
        exact ⟨[], t, h⟩
      · rintro ⟨pre, post, h⟩
        have h1 := List.append_eq_nil.mp h.symm
        have h2 := List.append_eq_nil.mp h1.1
        exact ⟨[], by simp [h2.2]⟩
  | cons c rest ih =>
      simp only [hasSub, Bool.or_eq_true, isPre_iff, ih]
      constructor
      · rintro (⟨t, h⟩ | ⟨pre, post, h⟩)
        · exact ⟨[], t, by simpa using h⟩
        · exact ⟨c :: pre, post, by simp [h]⟩
      · rintro ⟨pre, post, h⟩
        cases pre with
        | nil => exact Or.inl ⟨post, by simpa using h⟩
        | cons x xs =>
            right
            simp only [List.cons_append, List.cons.injEq] at h
            exact ⟨xs, post, h.2⟩

theorem containsSub_iff (s pat : String) :
    containsSub s pat = true ↔ ∃ pre post, s.toList = pre ++ pat.toList ++ post := by
  simpa [containsSub] using hasSub_iff pat.toList s.toList

theorem containsSub_of_append (a b c : String) :
    containsSub (a ++ b ++ c) b = true := by
  rw [containsSub_iff]
  exact ⟨a.toList, c.toList, by simp [toList_append]⟩

theorem update_memory_lookup_self (m : List (String × String)) (sid v : String) :
    List.lookup sid (update_memory m sid v) = some v := by
  induction m with
  | nil => simp [update_memory, List.lookup]
  | cons p rest ih =>
      by_cases h : p.1 = sid
      · simp [update_memory, h, List.lookup]
      · have hb : (p.1 == sid) = false := beq_eq_false_iff_ne.mpr h
        have hb' : (sid == p.1) = false := beq_eq_false_iff_ne.mpr (Ne.symm h)
        simp [update_memory, hb, List.lookup, hb', ih]

theorem update_memory_lookup_isSome (m : List (String × String)) (k sid v : String)
    (h : (List.lookup k m).isSome = true) :
    (List.lookup k (update_memory m sid v)).isSome = true := by
  induction m with
  | nil => simp [List.lookup] at h
  | cons p rest ih =>
      by_cases hp : p.1 = sid
      · by_cases hk : k = sid
        · simp [update_memory, hp, List.lookup, hk]
        · have : (k == p.1) = false := beq_eq_false_iff_ne.mpr (hp ▸ hk)
          simp only [List.lookup, this] at h
          have hks : (k == sid) = false := beq_eq_false_iff_ne.mpr hk
          simp [update_memory, hp, List.lookup, hks, h]
      · by_cases hk : k = p.1
        · simp [update_memory, beq_eq_false_iff_ne.mpr hp, List.lookup, hk]
        · have hkb : (k == p.1) = false := beq_eq_false_iff_ne.mpr hk
          simp only [List.lookup, hkb] at h
          simp [update_memory, beq_eq_false_iff_ne.mpr hp, List.lookup, hkb, ih h]

theorem solve_steps_memory_mono (dispatch gen : String → String)
    (stepsL : List (String × String)) (idx : Nat) (mem : List (String × String))
    (fin : Option String) (k : String)
    (h : (List.lookup k mem).isSome = true) :
    (List.lookup k (solve_steps dispatch gen stepsL idx mem fin).2.1).isSome = true := by
  induction stepsL generalizing idx mem fin with
  | nil => exact h
  | cons p rest ih =>
      obtain ⟨sid, step⟩ := p
      by_cases h1 : is_error (dispatch (enrich_step_with_memory mem step)) = true
      · simpa [solve_steps, h1] using h
      · have hm1 := update_memory_lookup_isSome mem k sid
          (dispatch (enrich_step_with_memory mem step)) h
        by_cases h2 : self_evaluate gen step (dispatch (enrich_step_with_memory mem step)) = true
        · simpa [solve_steps, h1, h2] using ih (idx + 1) _ (some _) hm1
        · by_cases h3 : is_error (dispatch (retry_prompt step)) = true
          · simpa [solve_steps, h1, h2, h3] using hm1
          · have hm2 := update_memory_lookup_isSome _ k sid
              (dispatch (retry_prompt step)) hm1
            simpa [solve_steps, h1, h2, h3] using ih (idx + 1) _ (some _) hm2

theorem joinMemory_mem (mem : List (String × String)) (p : String × String)
    (h : p ∈ mem) :
    ∃ pre post, (joinMemory mem).toList = pre ++ (memoryEntry p).toList ++ post := by
  induction mem with
  | nil => cases h
  | cons q rest ih =>
      cases h with
      | head =>
          cases rest with
          | nil => exact ⟨[], [], by simp [joinMemory]⟩
          | cons r rs =>
              exact ⟨[], ("\n" ++ joinMemory (r :: rs)).toList, by
                simp [joinMemory, toList_append, List.append_assoc]⟩
      | tail _ hmem =>
          cases rest with
          | nil => cases hmem
          | cons r rs =>
              obtain ⟨pre, post, hpp⟩ := ih hmem
              refine ⟨(memoryEntry q ++ "\n").toList ++ pre, post, ?_⟩
              simp only [joinMemory, toList_append, hpp, List.append_assoc]

theorem enrich_contains_entry (mem : List (String × String)) (s : String)
    (p : String × String) (h : p ∈ mem) :
    containsSub (enrich_step_with_memory mem s) (memoryEntry p) = true := by
  obtain ⟨pre, post, hpp⟩ := joinMemory_mem mem p h
  rw [containsSub_iff]
  refine ⟨("Contextual Memory:\n").toList ++ pre,
    post ++ ("\n\nTask Step: " ++ s).toList, ?_⟩
  simp only [enrich_step_with_memory, toList_append, hpp, List.append_assoc]

theorem containsSub_prefix (p t : String) : containsSub (p ++ t) p = true := by
  rw [containsSub_iff]
  exact ⟨[], t.toList, by simp [toList_append]⟩

theorem solve_steps_trace_cons (dispatch gen : String → String)
    (sid step : String) (rest : List (String × String)) (idx : Nat)
    (mem : List (String × String)) (fin : Option String) :
    ∃ tr, (solve_steps dispatch gen ((sid, step) :: rest) idx mem fin).2.2 =
      enrich_step_with_memory mem step :: tr := by
  by_cases h1 : is_error (dispatch (enrich_step_with_memory mem step)) = true
  · exact ⟨[], by simp [solve_steps, h1]⟩
  · by_cases h2 : self_evaluate gen step (dispatch (enrich_step_with_memory mem step)) = true
    · exact ⟨(solve_steps dispatch gen rest (idx + 1)
          (update_memory mem sid (dispatch (enrich_step_with_memory mem step)))
          (some (dispatch (enrich_step_with_memory mem step)))).2.2,
        by simp [solve_steps, h1, h2]⟩
    · by_cases h3 : is_error (dispatch (retry_prompt step)) = true
      · exact ⟨[retry_prompt step], by simp [solve_steps, h1, h2, h3]⟩
      · exact ⟨retry_prompt step :: (solve_steps dispatch gen rest (idx + 1)
          (update_memory (update_memory mem sid
            (dispatch (enrich_step_with_memory mem step))) sid
            (dispatch (retry_prompt step)))
          (some (dispatch (retry_prompt step)))).2.2,
        by simp [solve_steps, h1, h2, h3]⟩

theorem build_graph_cons (s : String) (rest : List String) :
    ∃ t, build_reasoning_graph (s :: rest) = (step_id 1, s) :: t := by
  refine ⟨((rest.enumFrom 1).map (fun p => (step_id (p.1 + 1), p.2))), ?_⟩
  simp [build_reasoning_graph, List.enum]

/-! ## Claim theorems -/

/-- C8: for every result string, `_is_error` returns true iff the
lower-cased string contains one of the fixed indicators `error`, `failed`,
`exception`, `invalid`, `could not`, `unable to`; in particular
`IsError "Operation failed: timeout"` is true and
`IsError "Task completed successfully"` is false. -/
theorem C8_is_error_characterisation :
    (∀ s : String, is_error s = true ↔
      ((∃ pre post, (toLowerStr s).toList = pre ++ "error".toList ++ post) ∨
       (∃ pre post, (toLowerStr s).toList = pre ++ "failed".toList ++ post) ∨
       (∃ pre post, (toLowerStr s).toList = pre ++ "exception".toList ++ post) ∨
       (∃ pre post, (toLowerStr s).toList = pre ++ "invalid".toList ++ post) ∨
       (∃ pre post, (toLowerStr s).toList = pre ++ "could not".toList ++ post) ∨
       (∃ pre post, (toLowerStr s).toList = pre ++ "unable to".toList ++ post))) ∧
    is_error "Operation failed: timeout" = true ∧
    is_error "Task completed successfully" = false := by
  refine ⟨fun s => ?_, by decide, by decide⟩
  simp only [is_error, error_indicators, List.any_cons, List.any_nil,
    Bool.or_eq_true, Bool.or_false, containsSub_iff]

/-- C4: for every submission naming an agent with no row in the `agents`
table, `dispatch_task` returns the error message immediately and leaves
the whole dispatcher state unchanged: no task record is persisted, nothing
is enqueued, and no agent execution happens. -/
theorem C4_unknown_agent (agentTable : List (String × Nat))
    (cot : String → String → String) (st : DispatchState)
    (task agentName : String) (priority : Int) (useCoT : Bool)
    (h : lookupAgent agentTable agentName = none) :
    dispatch_task agentTable cot st task agentName priority useCoT =
      (some ("Agent \x27" ++ agentName ++ "\x27 not found in database."), st) := by
  simp [dispatch_task, h]

/-- Witness for C4: the spec's scenario — task `Deploy the service`,
priority 1, no reasoning, unknown agent `ghost`. -/
theorem C4_unknown_agent_witness :
    lookupAgent [("helper", 7)] "ghost" = none ∧
    dispatch_task [("helper", 7)] (fun _ _ => "") initState "Deploy the service"
        "ghost" 1 false =
      (some ("Agent \x27" ++ "ghost" ++ "\x27 not found in database."), initState) :=
  ⟨by decide,
   C4_unknown_agent [("helper", 7)] (fun _ _ => "") initState "Deploy the service"
     "ghost" 1 false (by decide)⟩

/-- C5: whenever the dispatched result of the step at the head of the
remaining step list is classified as an error, the loop returns the
failure message naming the 1-based step index and the step content,
dispatches nothing further (the dispatch trace holds exactly the one
prompt, whatever the remaining steps are), and the message contains
`Failed at step <idx>`. -/
theorem C5_step_error_aborts (dispatch gen : String → String)
    (memory : List (String × String)) (fin : Option String)
    (idx : Nat) (sid step : String) (rest : List (String × String))
    (h : is_error (dispatch (enrich_step_with_memory memory step)) = true) :
    solve_steps dispatch gen ((sid, step) :: rest) idx memory fin =
      (step_error_message idx step (dispatch (enrich_step_with_memory memory step)),
        memory, [enrich_step_with_memory memory step]) ∧
    containsSub
      (step_error_message idx step (dispatch (enrich_step_with_memory memory step)))
      ("Failed at step " ++ toString idx) = true := by
  refine ⟨by simp [solve_steps, h], ?_⟩
  rw [containsSub_iff]
  refine ⟨[], (": \x27" ++ step ++ "\x27. Error: "
    ++ dispatch (enrich_step_with_memory memory step)).toList, ?_⟩
  simp [step_error_message, toList_append, List.append_assoc]

/-- Witness for C5: a single-step decomposition whose agent answer is
classified as an error yields a message containing `Failed at step 1`. -/
theorem C5_step_error_aborts_witness :
    is_error ((fun _ => "error: boom") (enrich_step_with_memory [] "Step A")) = true ∧
    (solve_steps (fun _ => "error: boom") (fun _ => "yes")
        [("step_1", "Step A")] 1 [] none =
      (step_error_message 1 "Step A" "error: boom", [],
        [enrich_step_with_memory [] "Step A"]) ∧
     containsSub (step_error_message 1 "Step A" "error: boom")
       ("Failed at step " ++ toString 1) = true) :=
  ⟨by decide,
   C5_step_error_aborts (fun _ => "error: boom") (fun _ => "yes") [] none 1
     "step_1" "Step A" [] (by decide)⟩

/-- C6: when a step's result is classified as success but its
self-evaluation fails, exactly one retry is dispatched with the augmented
`retry_step` prompt; if the retry's result is classified as an error the
whole run aborts with the retry-failure message, otherwise the retry's
result is the one accepted (passed on as the step's result) and stored in
context memory under the step's id, overwriting the original. -/
theorem C6_failed_evaluation_retry (dispatch gen : String → String)
    (memory : List (String × String)) (fin : Option String) (idx : Nat)
    (sid step : String) (rest : List (String × String))
    (h1 : is_error (dispatch (enrich_step_with_memory memory step)) = false)
    (h2 : self_evaluate gen step (dispatch (enrich_step_with_memory memory step)) = false) :
    (is_error (dispatch (retry_prompt step)) = true →
      solve_steps dispatch gen ((sid, step) :: rest) idx memory fin =
        (retry_error_message idx step (dispatch (retry_prompt step)),
          update_memory memory sid (dispatch (enrich_step_with_memory memory step)),
          [enrich_step_with_memory memory step, retry_prompt step])) ∧
    (is_error (dispatch (retry_prompt step)) = false →
      solve_steps dispatch gen ((sid, step) :: rest) idx memory fin =
        ((solve_steps dispatch gen rest (idx + 1)
            (update_memory (update_memory memory sid
              (dispatch (enrich_step_with_memory memory step))) sid
              (dispatch (retry_prompt step)))
            (some (dispatch (retry_prompt step)))).1,
          (solve_steps dispatch gen rest (idx + 1)
            (update_memory (update_memory memory sid
              (dispatch (enrich_step_with_memory memory step))) sid
              (dispatch (retry_prompt step)))
            (some (dispatch (retry_prompt step)))).2.1,
          enrich_step_with_memory memory step :: retry_prompt step ::
            (solve_steps dispatch gen rest (idx + 1)
              (update_memory (update_memory memory sid
                (dispatch (enrich_step_with_memory memory step))) sid
                (dispatch (retry_prompt step)))
              (some (dispatch (retry_prompt step)))).2.2) ∧
      List.lookup sid (update_memory (update_memory memory sid
          (dispatch (enrich_step_with_memory memory step))) sid
          (dispatch (retry_prompt step))) =
        some (dispatch (retry_prompt step))) := by
  refine ⟨fun h3 => by simp [solve_steps, h1, h2, h3],
    fun h3 => ⟨by simp [solve_steps, h1, h2, h3], update_memory_lookup_self _ _ _⟩⟩

/-- Witness for C6: a step answered `ok`, evaluated `no`, retried with
answer `ok2` — the retry result is accepted and stored. -/
theorem C6_failed_evaluation_retry_witness :
    is_error ((fun p => if p = retry_prompt "Step A" then "ok2" else "ok")
      (enrich_step_with_memory [] "Step A")) = false ∧
    self_evaluate (fun _ => "no") "Step A"
      ((fun p => if p = retry_prompt "Step A" then "ok2" else "ok")
        (enrich_step_with_memory [] "Step A")) = false ∧
    List.lookup "step_1"
      (update_memory (update_memory [] "step_1"
        ((fun p => if p = retry_prompt "Step A" then "ok2" else "ok")
          (enrich_step_with_memory [] "Step A"))) "step_1"
        ((fun p => if p = retry_prompt "Step A" then "ok2" else "ok")
          (retry_prompt "Step A"))) =
      some ((fun p => if p = retry_prompt "Step A" then "ok2" else "ok")
        (retry_prompt "Step A")) :=
  ⟨by decide, by decide,
   ((C6_failed_evaluation_retry
      (fun p => if p = retry_prompt "Step A" then "ok2" else "ok")
      (fun _ => "no") [] none 1 "step_1" "Step A" []
      (by decide) (by decide)).2 (by decide)).2⟩

/-- C7: `ParseDecomposition "1. Step A\n2. Step B"` is exactly
`["Step A", "Step B"]`; with an agent answering `ok` to every step and an
evaluator answering `yes`, `Solve` returns `ok` (the last step's result)
dispatching only the two step prompts (no retry); and a decomposition
producing zero steps makes `Solve` return the `No result produced.`
sentinel, which is not the empty string. -/
theorem C7_parse_and_roundtrip (gen0 dispatch0 : String → String)
    (memory0 : List (String × String)) (task0 : String)
    (h : parse_decomposition_output (gen0 (decomposition_prompt task0)) = []) :
    parse_decomposition_output "1. Step A\n2. Step B" = ["Step A", "Step B"] ∧
    solve_task_with_reasoning (fun _ => "ok")
      (fun p => if p = decomposition_prompt "task" then "1. Step A\n2. Step B" else "yes")
      [] "task" =
      ("ok", [("step_1", "ok"), ("step_2", "ok")],
        ["Contextual Memory:\n\n\nTask Step: Step A",
         "Contextual Memory:\nstep_1: ok\n\nTask Step: Step B"]) ∧
    (solve_task_with_reasoning dispatch0 gen0 memory0 task0).1 = "No result produced." ∧
    "No result produced." ≠ "" := by
  refine ⟨by decide, by decide, ?_, by decide⟩
  simp [solve_task_with_reasoning, h, build_reasoning_graph, solve_steps]

/-- Witness for C7: a generation oracle whose decomposition output parses
to zero steps. -/
theorem C7_parse_and_roundtrip_witness :
    parse_decomposition_output ((fun _ => "") (decomposition_prompt "t")) = [] ∧
    (solve_task_with_reasoning (fun _ => "") (fun _ => "") [] "t").1 =
      "No result produced." :=
  ⟨by decide,
   (C7_parse_and_roundtrip (fun _ => "") (fun _ => "") [] "t" (by decide)).2.2.1⟩

/-- C1 (code bug): for the task `fix it` submitted once and an agent that
raises on every attempt, the run does **not** end with a `dead-lettered`
(or even `failed`) stored status and the dead-letter queue stays empty:
the retry frame re-queries the record with status `queued` after the
first frame already set it to `running`, so it aborts with `No matching
queued task found` before re-executing the agent, and the record is left
`running` forever.  (The dead-letter branch, were it reached, stores
`failed`; the string `dead-lettered` appears nowhere in the source.) -/
theorem C1_dead_letter_unreachable :
    alwaysFailRun.2.store.map TaskRec.status = ["running"] ∧
    alwaysFailRun.2.dead_letter_queue = [] ∧
    alwaysFailRun.1 =
      "No matching queued task found for \x27fix it\x27 and agent \x27helper\x27." ∧
    "running" ≠ "dead-lettered" ∧
    alwaysFailRun.2.dead_letter_queue.length ≠ 1 := by
  refine ⟨by decide, by decide, by decide, by decide, by decide⟩

/-- Counterexample to C2: in the always-failing run the single backoff
sleep before retry attempt 1 lasts `2 ^ 0 = 1` time unit, not the claimed
`2 ^ 1`. -/
theorem C2_backoff_counterexample :
    alwaysFailRun.2.sleeps = [1] ∧ (1 : Nat) ≠ 2 ^ 1 := by
  refine ⟨by decide, by decide⟩

/-- C2 as amended: retry attempt `k` (1-indexed) waits `2 ^ (k-1)` time
units — the sleeps of a run form the sequence `2^0, 2^1, …` — the number
of sleeps is at most `maxRetries`, and the number of agent execution
attempts is bounded by `maxRetries` (default 3). -/
theorem C2_amended_backoff (outcome : Nat → Except String String)
    (task agentName : String) (aid : Nat) (priority : Int) (maxRetries : Nat)
    (h : 1 ≤ maxRetries) :
    ∃ n ≤ maxRetries,
      (execute_standard_task maxRetries [(agentName, aid)] [agentName] outcome
        priority task agentName 0 (singleQueued task aid priority)).2.sleeps =
        (List.range n).map (fun k => 2 ^ k) ∧
      (execute_standard_task maxRetries [(agentName, aid)] [agentName] outcome
        priority task agentName 0 (singleQueued task aid priority)).2.agent_calls ≤
        maxRetries := by
  obtain ⟨g, rfl⟩ : ∃ g, maxRetries = g + 1 := ⟨maxRetries - 1, by omega⟩
  have hrq : (("running" : String) == "queued") = false := by decide
  cases ho : outcome 0 with
  | ok r =>
      refine ⟨0, by omega, ?_, ?_⟩ <;>
        simp [execute_standard_task, execAux, lookupAgent, findLatest, setStatus,
          setStatusResult, singleQueued, initState, ho, List.find?, hrq]
  | error e =>
      refine ⟨1, by omega, ?_, ?_⟩ <;>
        simp [execute_standard_task, execAux, lookupAgent, findLatest, setStatus,
          setStatusResult, singleQueued, initState, ho, List.find?, hrq,
          List.range_succ]

/-- Witness for C2 as amended: the always-failing oracle on a single
queued record with the default `maxRetries = 3`. -/
theorem C2_amended_backoff_witness :
    ∃ n ≤ 3,
      (execute_standard_task 3 [("helper", 7)] ["helper"]
        (fun _ => Except.error "boom") 1 "fix it" "helper" 0
        (singleQueued "fix it" 7 1)).2.sleeps =
        (List.range n).map (fun k => 2 ^ k) ∧
      (execute_standard_task 3 [("helper", 7)] ["helper"]
        (fun _ => Except.error "boom") 1 "fix it" "helper" 0
        (singleQueued "fix it" 7 1)).2.agent_calls ≤ 3 :=
  C2_amended_backoff (fun _ => Except.error "boom") "fix it" "helper" 7 1 3
    (by decide)

/-- Counterexample to C3: an agent that raises once and would succeed on
attempt 2 leaves the stored status `running`, not `completed` — the agent
is in fact executed only once because the retry frame's queued-record
lookup fails. -/
theorem C3_retry_success_counterexample :
    secondTrySucceedsRun.2.store.map TaskRec.status = ["running"] ∧
    "running" ≠ "completed" ∧
    secondTrySucceedsRun.2.agent_calls = 1 := by
  refine ⟨by decide, by decide, by decide⟩

/-- C3 as amended: for success on attempt 1 the stored record ends
`completed` — though what is stored in its `result` column and returned is
the rebound `session.execute` handle, not the agent's output — and no
retry count is persisted because the `Task` model of `db/models.py` has
no `retry_count` column at all; for any failing first attempt the record
stays `running` — success on attempt `k ≥ 2` cannot occur because the
retry frame aborts on its queued-record lookup. -/
theorem C3_amended_completion (outcome : Nat → Except String String)
    (task agentName : String) (aid : Nat) (priority : Int) (maxRetries : Nat)
    (h : 1 ≤ maxRetries) :
    (∀ r, outcome 0 = Except.ok r →
      (execute_standard_task maxRetries [(agentName, aid)] [agentName] outcome
        priority task agentName 0 (singleQueued task aid priority)).2.store.map
          TaskRec.status = ["completed"] ∧
      (execute_standard_task maxRetries [(agentName, aid)] [agentName] outcome
        priority task agentName 0 (singleQueued task aid priority)).2.store.map
          TaskRec.result = [some sessionExecuteHandle] ∧
      (execute_standard_task maxRetries [(agentName, aid)] [agentName] outcome
        priority task agentName 0 (singleQueued task aid priority)).1 =
        sessionExecuteHandle) ∧
    (∀ e, outcome 0 = Except.error e →
      (execute_standard_task maxRetries [(agentName, aid)] [agentName] outcome
        priority task agentName 0 (singleQueued task aid priority)).2.store.map
          TaskRec.status = ["running"]) := by
  obtain ⟨g, rfl⟩ : ∃ g, maxRetries = g + 1 := ⟨maxRetries - 1, by omega⟩
  have hrq : (("running" : String) == "queued") = false := by decide
  constructor
  · intro r ho
    refine ⟨?_, ?_, ?_⟩ <;>
      simp [execute_standard_task, execAux, lookupAgent, findLatest, setStatus,
        setStatusResult, singleQueued, initState, ho, List.find?, hrq]
  · intro e ho
    simp [execute_standard_task, execAux, lookupAgent, findLatest, setStatus,
      setStatusResult, singleQueued, initState, ho, List.find?, hrq]

/-- Witness for C3 as amended: an agent succeeding on its first call with
result `done` — the record ends `completed` holding the query handle, and
the handle is what the call returns. -/
theorem C3_amended_completion_witness :
    (execute_standard_task 3 [("helper", 7)] ["helper"] (fun _ => Except.ok "done")
      1 "fix it" "helper" 0 (singleQueued "fix it" 7 1)).2.store.map
        TaskRec.status = ["completed"] ∧
    (execute_standard_task 3 [("helper", 7)] ["helper"] (fun _ => Except.ok "done")
      1 "fix it" "helper" 0 (singleQueued "fix it" 7 1)).2.store.map
        TaskRec.result = [some sessionExecuteHandle] ∧
    (execute_standard_task 3 [("helper", 7)] ["helper"] (fun _ => Except.ok "done")
      1 "fix it" "helper" 0 (singleQueued "fix it" 7 1)).1 = sessionExecuteHandle :=
  (C3_amended_completion (fun _ => Except.ok "done") "fix it" "helper" 7 1 3
    (by decide)).1 "done" rfl

/-- C9 (code bug): the `No matching queued task found` early return sits
after the rate-limiter `acquire` and before the `try`/`finally`, so that
exit path releases nothing — an isolated retry frame ends with one more
acquire than release, and the end-to-end always-failing run ends with
`acquires = 2` but `releases = 1`: a leaked permit. -/
theorem C9_permit_leak :
    alwaysFailRun.2.acquires = 2 ∧
    alwaysFailRun.2.releases = 1 ∧
    (2 : Nat) ≠ 1 ∧
    leakFrameRun.2.acquires = 1 ∧
    leakFrameRun.2.releases = 0 ∧
    leakFrameRun.1 =
      "No matching queued task found for \x27fix it\x27 and agent \x27helper\x27." := by
  refine ⟨by decide, by decide, by decide, by decide, by decide, by decide⟩

/-- Counterexample to C10: the entry `step_1 ↦ A-ok` written during the
first solve call is **not** included in the enriched prompt of every step
of the second call: the second call's own step 1 overwrites the key
`step_1` with `B-ok`, so the second step's prompt no longer contains
`step_1: A-ok`. -/
theorem C10_memory_counterexample :
    (solve_task_with_reasoning dispatchTwoTasks genTwoTasks [] "task1").2.1 =
      [("step_1", "A-ok")] ∧
    (solve_task_with_reasoning dispatchTwoTasks genTwoTasks
        [("step_1", "A-ok")] "task2").2.2 =
      ["Contextual Memory:\nstep_1: A-ok\n\nTask Step: StepX",
       "Contextual Memory:\nstep_1: B-ok\n\nTask Step: StepY"] ∧
    containsSub "Contextual Memory:\nstep_1: B-ok\n\nTask Step: StepY"
      "step_1: A-ok" = false := by
  refine ⟨by decide, by decide, by decide⟩

/-- C10 as amended: the context memory is never cleared between solve
calls (only the reasoning graph is rebuilt per invocation): every key
present in memory when a call starts is still present when it ends, the
first prompt dispatched by a call is the first step enriched with the
incoming memory, and that prompt contains every incoming memory entry —
so step results leak into later independent tasks, though an entry can
later be overwritten by a same-id step of the new call. -/
theorem C10_amended_memory_leak (dispatch gen : String → String)
    (mem : List (String × String)) (task s : String) (rest : List String)
    (h : parse_decomposition_output (gen (decomposition_prompt task)) = s :: rest) :
    (∀ k, (List.lookup k mem).isSome = true →
      (List.lookup k (solve_task_with_reasoning dispatch gen mem task).2.1).isSome
        = true) ∧
    (∃ tr, (solve_task_with_reasoning dispatch gen mem task).2.2 =
      enrich_step_with_memory mem s :: tr) ∧
    (∀ p ∈ mem,
      containsSub (enrich_step_with_memory mem s) (memoryEntry p) = true) := by
  refine ⟨fun k hk => ?_, ?_, fun p hp => enrich_contains_entry mem s p hp⟩
  · simp only [solve_task_with_reasoning, h]
    exact solve_steps_memory_mono dispatch gen
      (build_reasoning_graph (s :: rest)) 1 mem none k hk
  · obtain ⟨t, ht⟩ := build_graph_cons s rest
    simp only [solve_task_with_reasoning, h, ht]
    exact solve_steps_trace_cons dispatch gen (step_id 1) s t 1 mem none

/-- Witness for C10 as amended: one incoming entry `k ↦ v`, a
decomposition with a single step `Only`. -/
theorem C10_amended_memory_leak_witness :
    parse_decomposition_output ((fun _ => "1. Only")
      (decomposition_prompt "t")) = ["Only"] ∧
    ((∀ k, (List.lookup k [("k", "v")]).isSome = true →
      (List.lookup k (solve_task_with_reasoning (fun _ => "ok")
        (fun _ => "1. Only") [("k", "v")] "t").2.1).isSome = true) ∧
    (∃ tr, (solve_task_with_reasoning (fun _ => "ok")
        (fun _ => "1. Only") [("k", "v")] "t").2.2 =
      enrich_step_with_memory [("k", "v")] "Only" :: tr) ∧
    (∀ p ∈ [("k", "v")],
      containsSub (enrich_step_with_memory [("k", "v")] "Only")
        (memoryEntry p) = true)) :=
  ⟨by decide,
   C10_amended_memory_leak (fun _ => "ok") (fun _ => "1. Only")
     [("k", "v")] "t" "Only" [] (by decide)⟩

end Spec2Proof
